import Mathlib

/-!
Verification of the Prometheus-driven auto-scaling controller
(`scaler/scaler.py`): a shallow embedding of the Scaling Decision Engine,
the cooldown management, the replica source adapter and the control loop,
together with theorems about the properties of the controller.

Modelling conventions:
* Metric values and wall-clock times are rationals (`ℚ`); replica counts,
  breach counters and cooldown lengths are naturals (`ℕ`).
* The engine's `self.history` list feeds only logging and
  `get_scaling_statistics`; no decision reads it, so it is omitted from
  the engine state.  The decision state is exactly the process-global
  `consecutive_threshold_breaches` counter.
* External effects (the Prometheus query, the docker listing, the ansible
  run) enter the model as per-tick inputs: the optional metric value, the
  observed replica count (or raw command outcome for the adapter model),
  and whether the actuator reports success.
-/

namespace AutoScaleSim

/-- The configuration surface of the scaler, read from the environment in
`scaler.py` (SCALE_UP_THRESHOLD, SCALE_DOWN_THRESHOLD, MIN_REPLICAS,
MAX_REPLICAS, SCALE_UP_COOLDOWN, SCALE_DOWN_COOLDOWN,
SCALE_UP_BREACHES_REQUIRED, SCALE_DOWN_BREACHES_REQUIRED). -/
structure Config where
  thresholdUp : ℚ
  thresholdDown : ℚ
  minReplicas : ℕ
  maxReplicas : ℕ
  scaleUpCooldown : ℕ
  scaleDownCooldown : ℕ
  scaleUpBreachesRequired : ℕ
  scaleDownBreachesRequired : ℕ
  deriving DecidableEq

/-- The default configuration of `scaler.py` (the environment-variable
defaults): thresholds 0.6/0.2, replicas 1..6, cooldowns 30/60, breaches
required 2 up / 3 down. -/
def defaultConfig : Config where
  thresholdUp := 6/10
  thresholdDown := 2/10
  minReplicas := 1
  maxReplicas := 6
  scaleUpCooldown := 30
  scaleDownCooldown := 60
  scaleUpBreachesRequired := 2
  scaleDownBreachesRequired := 3

/-- Engine decision function `ScalingDecisionEngine.decide_scale`.
Takes the current value of the
process-global `consecutive_threshold_breaches` counter and returns the
updated counter together with the optional target replica count.

Python control flow: a missing metric resets the counter and returns
`None`; `metric > threshold_up` enters the scale-up branch (increment,
gate on SCALE_UP_BREACHES_REQUIRED, clamp on `current_replicas <
max_replicas`, increment of 2 — itself clamped by `min(2, max - current)`
— when `metric / threshold_up > 2.0`, else 1, target
`min(max, current + increment)`); `metric < threshold_down` enters the
scale-down branch (increment, gate on SCALE_DOWN_BREACHES_REQUIRED, clamp
on `current_replicas > min_replicas`, target `max(min, current - 1)`);
otherwise the counter is reset and `None` returned.  When a gate fails the
function falls through to the final `return None` with the counter left
incremented. -/
def decide_scale (cfg : Config) (breaches : ℕ)
    (current_metric : Option ℚ) (current_replicas : ℕ) : ℕ × Option ℕ :=
  match current_metric with
  | none => (0, none)
  | some m =>
    if cfg.thresholdUp < m then
      if cfg.scaleUpBreachesRequired ≤ breaches + 1 then
        if current_replicas < cfg.maxReplicas then
          let increment : ℕ :=
            if 2 < m / cfg.thresholdUp then
              min 2 (cfg.maxReplicas - current_replicas)
            else 1
          (0, some (min cfg.maxReplicas (current_replicas + increment)))
        else (0, none)
      else (breaches + 1, none)
    else if m < cfg.thresholdDown then
      if cfg.scaleDownBreachesRequired ≤ breaches + 1 then
        if cfg.minReplicas < current_replicas then
          (0, some (max cfg.minReplicas (current_replicas - 1)))
        else (0, none)
      else (breaches + 1, none)
    else (0, none)

/-- One engine input: the metric sample (or `none` when the Prometheus
query failed) and the replica count observed on that tick. -/
abbrev EngineInput := Option ℚ × ℕ

/-- The breach counter after running the engine over a sequence of
inputs, starting from counter value `b`. -/
def engineState (cfg : Config) (b : ℕ) (l : List EngineInput) : ℕ :=
  l.foldl (fun b p => (decide_scale cfg b p.1 p.2).1) b

/-- The list of engine outputs (optional targets) over a sequence of
inputs, starting from counter value `b`. -/
def engineRun (cfg : Config) (b : ℕ) : List EngineInput → List (Option ℕ)
  | [] => []
  | p :: rest =>
    let r := decide_scale cfg b p.1 p.2
    r.2 :: engineRun cfg r.1 rest

/-- Direction of a scaling action, the `'up'` / `'down'` strings of
`scaler.py`. -/
inductive ScaleAction where
  | up
  | down
  deriving DecidableEq

/-- Cooldown length for an action direction: SCALE_UP_COOLDOWN for `'up'`,
SCALE_DOWN_COOLDOWN otherwise. -/
def cooldownFor (cfg : Config) (a : ScaleAction) : ℕ :=
  match a with
  | .up => cfg.scaleUpCooldown
  | .down => cfg.scaleDownCooldown

/-- The process-global mutable state of the controller:
`consecutive_threshold_breaches`, `last_scale_time` (initially `0`) and
`last_scale_action` (initially `None`). -/
structure LoopState where
  breaches : ℕ
  lastScaleTime : ℚ
  lastScaleAction : Option ScaleAction
  deriving DecidableEq

/-- The initial global state of `scaler.py`:
`last_scale_time = 0`, `last_scale_action = None`,
`consecutive_threshold_breaches = 0`. -/
def initState : LoopState := ⟨0, 0, none⟩

/-- Cooldown gate `check_cooldown`: returns `True` when no previous scaling action
exists; otherwise the required cooldown is chosen by the PROPOSED
action's direction and the check fails when
`now - last_scale_time < required_cooldown`. -/
def check_cooldown (cfg : Config) (st : LoopState) (action : ScaleAction)
    (now : ℚ) : Bool :=
  if st.lastScaleAction = none then true
  else if now - st.lastScaleTime < (cooldownFor cfg action : ℚ) then false
  else true

/-- State update `update_scale_state`: record the wall time and direction of a
successful actuation. -/
def update_scale_state (st : LoopState) (action : ScaleAction) (now : ℚ) :
    LoopState :=
  { st with lastScaleTime := now, lastScaleAction := some action }

/-- The per-tick inputs of the control loop: the wall time of the tick,
the metric sample (or `none`), the observed replica count, and whether
`ansible_executor.scale_service` would report success on this tick. -/
structure TickInput where
  now : ℚ
  metric : Option ℚ
  replicas : ℕ
  actuatorOk : Bool
  deriving DecidableEq

/-- A record of one target sent to the actuator: the tick time, the
direction, the target replica count and whether the actuator reported
success. -/
structure Actuation where
  time : ℚ
  dir : ScaleAction
  target : ℕ
  success : Bool
  deriving DecidableEq

/-- Direction of a proposed change:
`action = 'up' if target_replicas > current_replicas else 'down'`. -/
def proposedDir (current target : ℕ) : ScaleAction :=
  if current < target then .up else .down

/-- One iteration of the main loop of `scaler.py` (steps 3 and 4): call
`decide_scale`; when a target is returned and differs from the observed
replica count, derive the direction (`'up'` iff target > current), gate
on `check_cooldown`, invoke the actuator, and on success call
`update_scale_state`.  Returns the new state and the actuation record
when a target was sent to the actuator. -/
def loop_tick (cfg : Config) (st : LoopState) (inp : TickInput) :
    LoopState × Option Actuation :=
  let r := decide_scale cfg st.breaches inp.metric inp.replicas
  let st1 : LoopState := { st with breaches := r.1 }
  match r.2 with
  | none => (st1, none)
  | some t =>
    if t ≠ inp.replicas then
      let dir : ScaleAction := proposedDir inp.replicas t
      if check_cooldown cfg st1 dir inp.now then
        if inp.actuatorOk then
          (update_scale_state st1 dir inp.now, some ⟨inp.now, dir, t, true⟩)
        else
          (st1, some ⟨inp.now, dir, t, false⟩)
      else (st1, none)
    else (st1, none)

/-- Run the control loop over a sequence of ticks, collecting the records
of every target sent to the actuator, in tick order. -/
def run_loop (cfg : Config) (st : LoopState) :
    List TickInput → LoopState × List Actuation
  | [] => (st, [])
  | inp :: rest =>
    let r := loop_tick cfg st inp
    let rr := run_loop cfg r.1 rest
    (rr.1, match r.2 with
           | none => rr.2
           | some a => a :: rr.2)

/-- Outcome of the `docker ps` invocation in
`DockerManager.get_current_replicas`: a successful run carrying the lines
of stdout, or one of the three handled failures (`TimeoutExpired`,
`CalledProcessError`, any other exception). -/
inductive CmdOutcome where
  | ok (lines : List String)
  | timeoutExpired
  | calledProcessError
  | otherError
  deriving DecidableEq

/-- Replica source `DockerManager.get_current_replicas`: on success, the count of
non-empty stdout lines (one per running container); on any failure,
MIN_REPLICAS. -/
def get_current_replicas (minReplicas : ℕ) : CmdOutcome → ℕ
  | .ok lines => (lines.filter (fun l => l ≠ "")).length
  | .timeoutExpired => minReplicas
  | .calledProcessError => minReplicas
  | .otherError => minReplicas

/-- Out-of-band test for an optional metric sample: present and strictly
outside the closed band `[thresholdDown, thresholdUp]` (spec: a breach;
thresholds are exclusive, equality is in-band). -/
def isOutOfBand (cfg : Config) : Option ℚ → Bool
  | none => false
  | some m => decide (cfg.thresholdUp < m) || decide (m < cfg.thresholdDown)

/-- One loop iteration including the replica-source adapter (steps 2-4 of
the main loop): the observed replica count fed to the decision engine is
exactly the value returned by `get_current_replicas` on the raw command
outcome. -/
def control_tick (cfg : Config) (st : LoopState) (now : ℚ)
    (metric : Option ℚ) (docker : CmdOutcome) (actuatorOk : Bool) :
    LoopState × Option Actuation :=
  loop_tick cfg st
    ⟨now, metric, get_current_replicas cfg.minReplicas docker, actuatorOk⟩

/-! ## Helper lemmas about the decision engine -/

/-- A missing metric resets the breach counter and returns no change. -/
theorem decide_scale_none (cfg : Config) (b r : ℕ) :
    decide_scale cfg b none r = (0, none) := rfl

/-- One engine call changes the breach counter to either `0` or `b + 1`. -/
theorem decide_scale_fst_cases (cfg : Config) (b : ℕ) (mo : Option ℚ) (r : ℕ) :
    (decide_scale cfg b mo r).1 = 0 ∨ (decide_scale cfg b mo r).1 = b + 1 := by
  cases mo with
  | none => exact Or.inl rfl
  | some m =>
    simp only [decide_scale]
    split_ifs <;> simp

/-- An in-band or absent sample resets the breach counter and returns no
change. -/
theorem decide_scale_reset (cfg : Config) (b : ℕ) (mo : Option ℚ) (r : ℕ)
    (h : isOutOfBand cfg mo = false) :
    decide_scale cfg b mo r = (0, none) := by
  cases mo with
  | none => rfl
  | some m =>
    simp only [isOutOfBand, Bool.or_eq_false_iff, decide_eq_false_iff_not] at h
    simp only [decide_scale, if_neg h.1, if_neg h.2]

/-- Below the scale-up confirmation gate, an up-region sample just
increments the counter, whatever the counter was accumulated from. -/
theorem decide_scale_incr_up (cfg : Config) (b : ℕ) (m : ℚ) (r : ℕ)
    (hm : cfg.thresholdUp < m) (hb : b + 1 < cfg.scaleUpBreachesRequired) :
    decide_scale cfg b (some m) r = (b + 1, none) := by
  simp only [decide_scale, if_pos hm, if_neg (by omega : ¬ cfg.scaleUpBreachesRequired ≤ b + 1)]

/-- Below the scale-down confirmation gate, a down-region sample just
increments the counter, whatever the counter was accumulated from. -/
theorem decide_scale_incr_down (cfg : Config) (b : ℕ) (m : ℚ) (r : ℕ)
    (hup : ¬ cfg.thresholdUp < m) (hm : m < cfg.thresholdDown)
    (hb : b + 1 < cfg.scaleDownBreachesRequired) :
    decide_scale cfg b (some m) r = (b + 1, none) := by
  simp only [decide_scale, if_neg hup, if_pos hm,
    if_neg (by omega : ¬ cfg.scaleDownBreachesRequired ≤ b + 1)]

/-- Any emitted target lies in `[minReplicas, maxReplicas]` provided the
observed replica count does. -/
theorem decide_scale_target_range (cfg : Config) (b : ℕ) (mo : Option ℚ) (r t : ℕ)
    (hmm : cfg.minReplicas ≤ cfg.maxReplicas)
    (h1 : cfg.minReplicas ≤ r) (h2 : r ≤ cfg.maxReplicas)
    (ht : (decide_scale cfg b mo r).2 = some t) :
    cfg.minReplicas ≤ t ∧ t ≤ cfg.maxReplicas := by
  cases mo with
  | none => simp [decide_scale] at ht
  | some m =>
    simp only [decide_scale] at ht
    split_ifs at ht <;> simp_all <;> omega

/-- Any emitted target differs from the observed replica count. -/
theorem decide_scale_target_ne (cfg : Config) (b : ℕ) (mo : Option ℚ) (r t : ℕ)
    (ht : (decide_scale cfg b mo r).2 = some t) : t ≠ r := by
  cases mo with
  | none => simp [decide_scale] at ht
  | some m =>
    simp only [decide_scale] at ht
    split_ifs at ht <;> simp_all <;> omega

/-- Splitting an engine run over an appended input list. -/
theorem engineState_append (cfg : Config) (b : ℕ) (l1 l2 : List EngineInput) :
    engineState cfg b (l1 ++ l2) = engineState cfg (engineState cfg b l1) l2 := by
  simp [engineState, List.foldl_append]

/-- The breach counter can grow by at most one per sample. -/
theorem engineState_le_add (cfg : Config) :
    ∀ (l : List EngineInput) (b : ℕ), engineState cfg b l ≤ b + l.length := by
  intro l
  induction l with
  | nil => intro b; simp [engineState]
  | cons p rest ih =>
    intro b
    have hstep : engineState cfg b (p :: rest) =
        engineState cfg ((decide_scale cfg b p.1 p.2).1) rest := by
      simp [engineState]
    rcases decide_scale_fst_cases cfg b p.1 p.2 with h0 | h1
    · rw [hstep, h0]
      have := ih 0
      simp only [List.length_cons]
      omega
    · rw [hstep, h1]
      have := ih (b + 1)
      simp only [List.length_cons]
      omega

/-! ## Helper lemmas about the control loop -/

/-- Unfolding `run_loop` over a cons. -/
theorem run_loop_cons (cfg : Config) (st : LoopState) (inp : TickInput)
    (rest : List TickInput) :
    run_loop cfg st (inp :: rest) =
      ((run_loop cfg (loop_tick cfg st inp).1 rest).1,
       match (loop_tick cfg st inp).2 with
       | none => (run_loop cfg (loop_tick cfg st inp).1 rest).2
       | some a => a :: (run_loop cfg (loop_tick cfg st inp).1 rest).2) := rfl

/-- Every target a tick sends to the actuator comes out of `decide_scale`
at that tick's inputs, carries the tick's wall time, and differs from the
observed replica count. -/
theorem loop_tick_record (cfg : Config) (st : LoopState) (inp : TickInput)
    (a : Actuation) (h : (loop_tick cfg st inp).2 = some a) :
    (decide_scale cfg st.breaches inp.metric inp.replicas).2 = some a.target ∧
    a.time = inp.now ∧ a.target ≠ inp.replicas := by
  simp only [loop_tick] at h
  rcases hd : (decide_scale cfg st.breaches inp.metric inp.replicas).2 with _ | t
  · rw [hd] at h
    exact Option.noConfusion h
  · rw [hd] at h
    simp only at h
    split_ifs at h with h1 <;>
      first
        | exact Option.noConfusion h
        | (injection h with h2; subst h2; exact ⟨by simp [hd], rfl, h1⟩)

/-- A passing cooldown check with a recorded previous action bounds the
distance from `last_scale_time` from below by the proposed action's
cooldown. -/
theorem check_cooldown_bound (cfg : Config) (st : LoopState) (d : ScaleAction)
    (now : ℚ) (hsome : st.lastScaleAction ≠ none)
    (h : check_cooldown cfg st d now = true) :
    (cooldownFor cfg d : ℚ) ≤ now - st.lastScaleTime := by
  unfold check_cooldown at h
  rw [if_neg hsome] at h
  split_ifs at h with hlt
  exact le_of_not_lt hlt

/-- A tick either leaves the cooldown state (`last_scale_time`,
`last_scale_action`) untouched and reports no successful actuation, or it
performs a successful actuation at the tick's wall time: the actuator was
invoked and reported success, the cooldown gate had passed against the
pre-tick state, and the cooldown state is re-armed at the tick time with
the actuation's direction. -/
theorem loop_tick_dichotomy (cfg : Config) (st : LoopState) (inp : TickInput) :
    ((loop_tick cfg st inp).1.lastScaleTime = st.lastScaleTime ∧
     (loop_tick cfg st inp).1.lastScaleAction = st.lastScaleAction ∧
     (∀ a, (loop_tick cfg st inp).2 = some a → a.success = false)) ∨
    (∃ a, (loop_tick cfg st inp).2 = some a ∧ a.success = true ∧
      inp.actuatorOk = true ∧ a.time = inp.now ∧
      (loop_tick cfg st inp).1.lastScaleTime = inp.now ∧
      (loop_tick cfg st inp).1.lastScaleAction = some a.dir ∧
      (st.lastScaleAction ≠ none →
        (cooldownFor cfg a.dir : ℚ) ≤ inp.now - st.lastScaleTime)) := by
  rcases hd : (decide_scale cfg st.breaches inp.metric inp.replicas).2 with _ | t
  · have hlt : loop_tick cfg st inp =
        ({ st with breaches := (decide_scale cfg st.breaches inp.metric inp.replicas).1 },
          none) := by
      simp only [loop_tick, hd]
    rw [hlt]
    exact Or.inl ⟨rfl, rfl, by simp⟩
  · by_cases h1 : t = inp.replicas
    · have hlt : loop_tick cfg st inp =
          ({ st with breaches := (decide_scale cfg st.breaches inp.metric inp.replicas).1 },
            none) := by
        simp only [loop_tick, hd]
        simp [h1]
      rw [hlt]
      exact Or.inl ⟨rfl, rfl, by simp⟩
    · by_cases hc : check_cooldown cfg
          { st with breaches := (decide_scale cfg st.breaches inp.metric inp.replicas).1 }
          (proposedDir inp.replicas t) inp.now = true
      · have hgap : st.lastScaleAction ≠ none →
            (cooldownFor cfg (proposedDir inp.replicas t) : ℚ) ≤
              inp.now - st.lastScaleTime :=
          fun hsome => check_cooldown_bound cfg _ _ _ hsome hc
        by_cases hok : inp.actuatorOk = true
        · have hlt : loop_tick cfg st inp =
              (update_scale_state
                { st with
                  breaches := (decide_scale cfg st.breaches inp.metric inp.replicas).1 }
                (proposedDir inp.replicas t) inp.now,
                some ⟨inp.now, proposedDir inp.replicas t, t, true⟩) := by
            simp only [loop_tick, hd]
            simp [h1, hc, hok]
          rw [hlt]
          exact Or.inr ⟨_, rfl, rfl, hok, rfl, rfl, rfl, hgap⟩
        · have hlt : loop_tick cfg st inp =
              ({ st with
                  breaches := (decide_scale cfg st.breaches inp.metric inp.replicas).1 },
                some ⟨inp.now, proposedDir inp.replicas t, t, false⟩) := by
            simp only [loop_tick, hd]
            simp [h1, hc, hok]
          rw [hlt]
          refine Or.inl ⟨rfl, rfl, ?_⟩
          intro a ha
          injection ha with ha
          rw [← ha]
      · have hlt : loop_tick cfg st inp =
            ({ st with breaches := (decide_scale cfg st.breaches inp.metric inp.replicas).1 },
              none) := by
          simp only [loop_tick, hd]
          simp [h1, hc]
        rw [hlt]
        exact Or.inl ⟨rfl, rfl, by simp⟩

/-- The successful actuations of a run, read in order, satisfy the
consecutive cooldown relation keyed on the LATER action's direction;
moreover when the pre-run state already has a recorded action, the first
success also keeps that distance from `last_scale_time`. -/
theorem run_loop_chain (cfg : Config) (ticks : List TickInput) :
    ∀ st : LoopState,
      List.Chain' (fun a b => (cooldownFor cfg b.dir : ℚ) ≤ b.time - a.time)
        (((run_loop cfg st ticks).2).filter (fun a => a.success)) ∧
      (∀ a, ((((run_loop cfg st ticks).2).filter (fun a => a.success)).head? = some a) →
        st.lastScaleAction ≠ none →
        (cooldownFor cfg a.dir : ℚ) ≤ a.time - st.lastScaleTime) := by
  induction ticks with
  | nil => intro st; simp [run_loop]
  | cons inp rest ih =>
    intro st
    have ih1 := ih (loop_tick cfg st inp).1
    rcases loop_tick_dichotomy cfg st inp with ⟨hT, hA, hF⟩ |
      ⟨a, ha, hs, _, htime, hT, hA, hgap⟩
    · rcases h2 : (loop_tick cfg st inp).2 with _ | a
      · rw [run_loop_cons, h2]
        simp only
        refine ⟨ih1.1, ?_⟩
        intro b hb hsome
        rw [← hT]
        exact ih1.2 b hb (by rw [hA]; exact hsome)
      · have hsa : a.success = false := hF a h2
        rw [run_loop_cons, h2]
        simp only
        rw [List.filter_cons_of_neg (by simp [hsa])]
        refine ⟨ih1.1, ?_⟩
        intro b hb hsome
        rw [← hT]
        exact ih1.2 b hb (by rw [hA]; exact hsome)
    · rw [run_loop_cons, ha]
      simp only
      rw [List.filter_cons_of_pos (by simp [hs])]
      constructor
      · rw [List.chain'_cons']
        refine ⟨?_, ih1.1⟩
        intro b hb
        have hrec := ih1.2 b hb (by rw [hA]; simp)
        rw [hT, ← htime] at hrec
        exact hrec
      · intro b hb hsome
        simp only [List.head?_cons, Option.some_inj] at hb
        rw [← hb, htime]
        exact hgap hsome

/-- Every recorded target of a run was produced by `decide_scale` on some
tick's inputs. -/
theorem run_loop_target_mem (cfg : Config) (ticks : List TickInput) :
    ∀ (st : LoopState) (a : Actuation), a ∈ (run_loop cfg st ticks).2 →
      ∃ inp ∈ ticks, ∃ b,
        (decide_scale cfg b inp.metric inp.replicas).2 = some a.target := by
  induction ticks with
  | nil => intro st a ha; simp [run_loop] at ha
  | cons inp rest ih =>
    intro st a ha
    rw [run_loop_cons] at ha
    rcases h2 : (loop_tick cfg st inp).2 with _ | a0
    · rw [h2] at ha
      simp only at ha
      rcases ih _ a ha with ⟨i, hi, b, hb⟩
      exact ⟨i, by simp [hi], b, hb⟩
    · rw [h2] at ha
      simp only [List.mem_cons] at ha
      rcases ha with rfl | ha
      · exact ⟨inp, by simp, st.breaches, (loop_tick_record cfg st inp a h2).1⟩
      · rcases ih _ a ha with ⟨i, hi, b, hb⟩
        exact ⟨i, by simp [hi], b, hb⟩

/-! ## Claim theorems -/

/-- C1, counterexample: on the alternating stream [0.7, 0.1, 0.7, 0.1]
(default thresholds 0.6/0.2, breaches required 2 up / 3 down, fresh state,
2 replicas) it is NOT the case that the engine returns no change on every
sample and that zero actuations occur: the third sample returns a target
and the loop actuates. -/
theorem alternating_stream_fires_actuation :
    ¬ (engineRun defaultConfig 0
        [(some (7/10), 2), (some (1/10), 2), (some (7/10), 2), (some (1/10), 2)] =
        [none, none, none, none] ∧
       (run_loop defaultConfig initState
        [⟨0, some (7/10), 2, true⟩, ⟨10, some (1/10), 2, true⟩,
         ⟨20, some (7/10), 2, true⟩, ⟨30, some (1/10), 2, true⟩]).2 = []) := by
  intro h
  have hrun : engineRun defaultConfig 0
      [(some (7/10), 2), (some (1/10), 2), (some (7/10), 2), (some (1/10), 2)] =
      [none, none, some 3, none] := by
    norm_num [engineRun, decide_scale, defaultConfig]
  rw [hrun] at h
  simp at h

/-- C1 (corrected): breach accumulation in `decide_scale` is
direction-agnostic.  Below the confirmation gate, an out-of-band sample
increments the single shared counter by one whatever direction the
counter was accumulated from (there is no per-direction state to restart
at 1), and on the alternating stream [0.7, 0.1, 0.7, 0.1] from fresh
state at 2 replicas the counter reaches the scale-up gate on the third
sample, which fires a scale-up to 3; exactly one actuation occurs. -/
theorem breach_accumulation_direction_agnostic (cfg : Config) (b : ℕ) (m : ℚ)
    (r : ℕ) :
    (cfg.thresholdUp < m → b + 1 < cfg.scaleUpBreachesRequired →
      decide_scale cfg b (some m) r = (b + 1, none)) ∧
    (¬ cfg.thresholdUp < m → m < cfg.thresholdDown →
      b + 1 < cfg.scaleDownBreachesRequired →
      decide_scale cfg b (some m) r = (b + 1, none)) ∧
    engineRun defaultConfig 0
      [(some (7/10), 2), (some (1/10), 2), (some (7/10), 2), (some (1/10), 2)] =
      [none, none, some 3, none] ∧
    ((run_loop defaultConfig initState
      [⟨0, some (7/10), 2, true⟩, ⟨10, some (1/10), 2, true⟩,
       ⟨20, some (7/10), 2, true⟩, ⟨30, some (1/10), 2, true⟩]).2).map
        (fun a => (a.time, a.target)) = [(20, 3)] := by
  refine ⟨fun h1 h2 => decide_scale_incr_up cfg b m r h1 h2,
    fun h1 h2 h3 => decide_scale_incr_down cfg b m r h1 h2 h3, ?_, ?_⟩
  · norm_num [engineRun, decide_scale, defaultConfig]
  · norm_num [run_loop, loop_tick, decide_scale, check_cooldown, update_scale_state,
      proposedDir, initState, cooldownFor, defaultConfig]

/-- C1, witness: a counter at 1 (accumulated from a scale-up breach)
is incremented to 2 by a scale-DOWN breach sample rather than restarting
at 1. -/
theorem breach_accumulation_direction_agnostic_witness :
    decide_scale defaultConfig 1 (some (1/10)) 2 = (2, none) := by
  have h := (breach_accumulation_direction_agnostic defaultConfig 1 (1/10) 2).2.1
    (by norm_num [defaultConfig]) (by norm_num [defaultConfig])
    (by norm_num [defaultConfig])
  simpa using h

/-- C4, counterexample: with SCALE_UP_BREACHES_REQUIRED = 2, on the
stream [0.1, 0.7] the preceding 1 sample (0.1) does not exceed the
scale-up threshold, yet a scale-up actuation to 3 is issued on the
current sample, because the down-breach also advanced the shared
counter. -/
theorem confirmation_gate_counts_down_breaches :
    ¬ defaultConfig.thresholdUp < 1/10 ∧
    engineRun defaultConfig 0 [(some (1/10), 2), (some (7/10), 2)] =
      [none, some 3] ∧
    ((run_loop defaultConfig initState
      [⟨0, some (1/10), 2, true⟩, ⟨10, some (7/10), 2, true⟩]).2).map
        (fun a => (a.time, a.dir, a.target, a.success)) =
      [(10, ScaleAction.up, 3, true)] := by
  refine ⟨by norm_num [defaultConfig], ?_, ?_⟩
  · norm_num [engineRun, decide_scale, defaultConfig]
  · norm_num [run_loop, loop_tick, decide_scale, check_cooldown, update_scale_state,
      proposedDir, initState, cooldownFor, defaultConfig]

/-- C4 (corrected): the confirmation gate prevents premature scale-up
when the preceding samples are not all out of band: for every call
sequence, if among the scaleUpBreachesRequired most recent samples one
of the preceding ones (`x`, followed by fewer than
scaleUpBreachesRequired − 1 later samples `v`) is absent or in-band,
then no decision is returned on the current up-region sample, whatever
happened before `x`. -/
theorem no_scale_up_after_recent_in_band_sample (cfg : Config)
    (u v : List EngineInput) (x : EngineInput) (m : ℚ) (r : ℕ)
    (hx : isOutOfBand cfg x.1 = false)
    (hlen : v.length + 1 < cfg.scaleUpBreachesRequired)
    (hm : cfg.thresholdUp < m) :
    (decide_scale cfg (engineState cfg 0 (u ++ x :: v)) (some m) r).2 = none := by
  have hsplit : engineState cfg 0 (u ++ x :: v) = engineState cfg 0 v := by
    rw [engineState_append]
    have hx0 : (decide_scale cfg (engineState cfg 0 u) x.1 x.2).1 = 0 := by
      rw [decide_scale_reset cfg (engineState cfg 0 u) x.1 x.2 hx]
    simp only [engineState, List.foldl_cons] at hx0 ⊢
    rw [hx0]
  have hle : engineState cfg 0 (u ++ x :: v) ≤ v.length := by
    rw [hsplit]
    have := engineState_le_add cfg v 0
    omega
  rw [decide_scale_incr_up cfg _ m r hm (by omega)]

/-- C4, witness: after an in-band sample (0.5), a single up-region
sample (0.7) does not fire with 2 breaches required. -/
theorem no_scale_up_after_recent_in_band_sample_witness :
    (decide_scale defaultConfig
      (engineState defaultConfig 0 [(some (1/2), 2)]) (some (7/10)) 2).2 = none :=
  no_scale_up_after_recent_in_band_sample defaultConfig [] [] (some (1/2), 2)
    (7/10) 2
    (by norm_num [isOutOfBand, defaultConfig])
    (by norm_num [defaultConfig])
    (by norm_num [defaultConfig])

/-- C6 (confirmed): an absent metric resets the breach counter to 0 and
returns no change, and a run whose every tick has an absent metric sends
nothing to the actuator. -/
theorem absent_metric_resets_and_no_actuation (cfg : Config) :
    (∀ b r, decide_scale cfg b none r = (0, none)) ∧
    (∀ (st : LoopState) (ticks : List TickInput),
      (∀ inp ∈ ticks, inp.metric = none) → (run_loop cfg st ticks).2 = []) := by
  refine ⟨fun b r => rfl, ?_⟩
  intro st ticks
  induction ticks generalizing st with
  | nil => intro _; simp [run_loop]
  | cons inp rest ih =>
    intro hall
    have hm : inp.metric = none := hall inp (by simp)
    have htick : (loop_tick cfg st inp).2 = none := by
      simp [loop_tick, hm, decide_scale]
    rw [run_loop_cons, htick]
    exact ih _ (fun i hi => hall i (by simp [hi]))

/-- C6, witness: two absent-metric ticks produce zero actuations. -/
theorem absent_metric_resets_and_no_actuation_witness :
    (run_loop defaultConfig initState
      [⟨0, none, 2, true⟩, ⟨10, none, 2, true⟩]).2 = [] :=
  (absent_metric_resets_and_no_actuation defaultConfig).2 initState
    [⟨0, none, 2, true⟩, ⟨10, none, 2, true⟩] (by decide)

/-- C7 (confirmed): a confirmed scale-up below the ceiling adds 2 when
metric / scaleUpThreshold > 2 and 1 otherwise, and returns
min(maxReplicas, replicas + delta) with the counter reset. -/
theorem scale_up_delta_formula (cfg : Config) (b : ℕ) (m : ℚ) (r : ℕ)
    (hm : cfg.thresholdUp < m) (hgate : cfg.scaleUpBreachesRequired ≤ b + 1)
    (hr : r < cfg.maxReplicas) :
    decide_scale cfg b (some m) r =
      (0, some (min cfg.maxReplicas
        (r + if 2 < m / cfg.thresholdUp then 2 else 1))) := by
  simp only [decide_scale, if_pos hm, if_pos hgate, if_pos hr]
  by_cases hov : 2 < m / cfg.thresholdUp
  · simp only [if_pos hov]
    have : min cfg.maxReplicas (r + min 2 (cfg.maxReplicas - r)) =
        min cfg.maxReplicas (r + 2) := by omega
    rw [this]
  · simp only [if_neg hov]

/-- C7, witness: the severe-spike scenario: second 1.5 sample (breach
counter at 1, 2 required) at 2 replicas fires a scale-up to 4
(overshoot 2.5 > 2, delta +2). -/
theorem scale_up_delta_formula_witness :
    decide_scale defaultConfig 1 (some (3/2)) 2 = (0, some 4) := by
  have h := scale_up_delta_formula defaultConfig 1 (3/2) 2
    (by norm_num [defaultConfig]) (by norm_num [defaultConfig])
    (by norm_num [defaultConfig])
  rw [h]
  norm_num [defaultConfig]

/-- C8 (confirmed): when the confirmation gate is met but the system is
at the relevant limit (up-region with replicas ≥ maxReplicas, or
down-region with replicas ≤ minReplicas), the engine resets the breach
counter to 0 and returns no change. -/
theorem clamp_resets_breaches_and_returns_none (cfg : Config) (b : ℕ) (m : ℚ)
    (r : ℕ)
    (h : (cfg.thresholdUp < m ∧ cfg.scaleUpBreachesRequired ≤ b + 1 ∧
            cfg.maxReplicas ≤ r) ∨
         (¬ cfg.thresholdUp < m ∧ m < cfg.thresholdDown ∧
            cfg.scaleDownBreachesRequired ≤ b + 1 ∧ r ≤ cfg.minReplicas)) :
    decide_scale cfg b (some m) r = (0, none) := by
  rcases h with ⟨h1, h2, h3⟩ | ⟨h1, h2, h3, h4⟩
  · simp only [decide_scale, if_pos h1, if_pos h2,
      if_neg (by omega : ¬ r < cfg.maxReplicas)]
  · simp only [decide_scale, if_neg h1, if_pos h2, if_pos h3,
      if_neg (by omega : ¬ cfg.minReplicas < r)]

/-- C8, witness: at the ceiling (replicas = 6 = maxReplicas), the second
0.9 sample satisfies the gate but is clamped: counter 0, no target. -/
theorem clamp_resets_breaches_and_returns_none_witness :
    decide_scale defaultConfig 1 (some (9/10)) 6 = (0, none) :=
  clamp_resets_breaches_and_returns_none defaultConfig 1 (9/10) 6
    (Or.inl ⟨by norm_num [defaultConfig], by norm_num [defaultConfig],
      by norm_num [defaultConfig]⟩)

/-- C9 (confirmed): every target the engine returns differs from the
observed replica count, and every record the loop sends to the actuator
has a target differing from that tick's replica reading (the loop skips
actuation when they are equal). -/
theorem target_never_equals_current :
    (∀ (cfg : Config) (b : ℕ) (mo : Option ℚ) (r t : ℕ),
      (decide_scale cfg b mo r).2 = some t → t ≠ r) ∧
    (∀ (cfg : Config) (st : LoopState) (inp : TickInput) (a : Actuation),
      (loop_tick cfg st inp).2 = some a → a.target ≠ inp.replicas) :=
  ⟨fun cfg b mo r t h => decide_scale_target_ne cfg b mo r t h,
   fun cfg st inp a h => (loop_tick_record cfg st inp a h).2.2⟩

/-- C9, witness: a confirmed moderate scale-up from 2 replicas targets 3,
and 3 differs from 2. -/
theorem target_never_equals_current_witness :
    (decide_scale defaultConfig 1 (some (7/10)) 2).2 = some 3 ∧ (3 : ℕ) ≠ 2 := by
  have he : (decide_scale defaultConfig 1 (some (7/10)) 2).2 = some 3 := by
    norm_num [decide_scale, defaultConfig]
  exact ⟨he, target_never_equals_current.1 defaultConfig 1 (some (7/10)) 2 3 he⟩

/-- C2, counterexample: a successful scale-down at t = 20 is followed by
a successful scale-up at t = 55 (gap 35 s), although the cooldown keyed
on the EARLIER action's direction is SCALE_DOWN_COOLDOWN = 60 s:
`check_cooldown` keys the window on the proposed action, not the
previous one. -/
theorem cooldown_keyed_on_previous_direction_fails :
    ((run_loop defaultConfig initState
      [⟨0, some (1/10), 3, true⟩, ⟨10, some (1/10), 3, true⟩,
       ⟨20, some (1/10), 3, true⟩,
       ⟨45, some (7/10), 2, true⟩, ⟨55, some (7/10), 2, true⟩]).2.filter
        (fun a => a.success)) =
      [⟨20, ScaleAction.down, 2, true⟩, ⟨55, ScaleAction.up, 3, true⟩] ∧
    ¬ ((cooldownFor defaultConfig ScaleAction.down : ℚ) ≤ (55 : ℚ) - 20) := by
  constructor
  · norm_num [run_loop, loop_tick, decide_scale, check_cooldown, update_scale_state,
      proposedDir, initState, cooldownFor, defaultConfig, List.filter]
  · norm_num [cooldownFor, defaultConfig]

/-- C2 (corrected): the cooldown window is keyed on the direction of the
PROPOSED (later) actuation: for every run from the initial state and
every pair of successful actuations (t1, dir1) before (t2, dir2),
t2 − t1 ≥ cooldown(dir2). -/
theorem cooldown_keyed_on_proposed_direction (cfg : Config)
    (ticks : List TickInput) :
    List.Pairwise (fun a b => (cooldownFor cfg b.dir : ℚ) ≤ b.time - a.time)
      (((run_loop cfg initState ticks).2).filter (fun a => a.success)) := by
  haveI : IsTrans Actuation
      (fun a b => (cooldownFor cfg b.dir : ℚ) ≤ b.time - a.time) := by
    constructor
    intro a b c hab hbc
    have h0 : (0 : ℚ) ≤ (cooldownFor cfg b.dir : ℚ) := Nat.cast_nonneg _
    simp only at hab hbc ⊢
    linarith
  exact List.chain'_iff_pairwise.mp (run_loop_chain cfg ticks initState).1

/-- C3, counterexample: with an observed replica reading of 10 (above
maxReplicas = 6), three 0.1 samples fire a scale-down whose target 9 is
sent to the actuator and exceeds maxReplicas, so the bounds claim fails
for arbitrary replica readings. -/
theorem out_of_range_reading_breaks_target_bounds :
    ((run_loop defaultConfig initState
      [⟨0, some (1/10), 10, true⟩, ⟨10, some (1/10), 10, true⟩,
       ⟨20, some (1/10), 10, true⟩]).2).map (fun a => a.target) = [9] ∧
    ¬ ((9 : ℕ) ≤ defaultConfig.maxReplicas) := by
  constructor
  · norm_num [run_loop, loop_tick, decide_scale, check_cooldown, update_scale_state,
      proposedDir, initState, cooldownFor, defaultConfig]
  · norm_num [defaultConfig]

/-- C3 (corrected): provided minReplicas ≤ maxReplicas and every
observed replica reading of the run lies within
[minReplicas, maxReplicas], every target the loop sends to the actuator
satisfies minReplicas ≤ target ≤ maxReplicas; an out-of-range reading
(e.g. above maxReplicas) can produce an out-of-range target. -/
theorem target_bounds_of_in_range_readings (cfg : Config)
    (ticks : List TickInput) (hcfg : cfg.minReplicas ≤ cfg.maxReplicas)
    (hin : ∀ inp ∈ ticks,
      cfg.minReplicas ≤ inp.replicas ∧ inp.replicas ≤ cfg.maxReplicas) :
    ∀ a ∈ (run_loop cfg initState ticks).2,
      cfg.minReplicas ≤ a.target ∧ a.target ≤ cfg.maxReplicas := by
  intro a ha
  rcases run_loop_target_mem cfg ticks initState a ha with ⟨i, hi, b, hb⟩
  exact decide_scale_target_range cfg b i.metric i.replicas a.target hcfg
    (hin i hi).1 (hin i hi).2 hb

/-- C3, witness: for the sustained-overload run from 2 replicas, the
actuated target 3 lies within the limits 1..6. -/
theorem target_bounds_of_in_range_readings_witness :
    defaultConfig.minReplicas ≤ 3 ∧ (3 : ℕ) ≤ defaultConfig.maxReplicas := by
  have hrec : (run_loop defaultConfig initState
      [⟨0, some (7/10), 2, true⟩, ⟨10, some (7/10), 2, true⟩]).2 =
      [⟨10, ScaleAction.up, 3, true⟩] := by
    norm_num [run_loop, loop_tick, decide_scale, check_cooldown, update_scale_state,
      proposedDir, initState, cooldownFor, defaultConfig]
  have hmem : (⟨10, ScaleAction.up, 3, true⟩ : Actuation) ∈
      (run_loop defaultConfig initState
        [⟨0, some (7/10), 2, true⟩, ⟨10, some (7/10), 2, true⟩]).2 := by
    rw [hrec]
    exact List.mem_singleton_self _
  exact target_bounds_of_in_range_readings defaultConfig
    [⟨0, some (7/10), 2, true⟩, ⟨10, some (7/10), 2, true⟩]
    (by decide) (by decide) _ hmem

/-- C5 (confirmed): when the actuator fails (or times out, reported as
failure), the tick leaves `last_scale_time` and `last_scale_action`
unchanged: `update_scale_state` runs only after a successful actuator
return, so a failed actuation arms no cooldown against the next tick. -/
theorem failed_actuation_preserves_cooldown_state (cfg : Config)
    (st : LoopState) (inp : TickInput) (h : inp.actuatorOk = false) :
    (loop_tick cfg st inp).1.lastScaleTime = st.lastScaleTime ∧
    (loop_tick cfg st inp).1.lastScaleAction = st.lastScaleAction := by
  rcases loop_tick_dichotomy cfg st inp with ⟨hT, hA, _⟩ | ⟨a, _, _, hok, _⟩
  · exact ⟨hT, hA⟩
  · simp [h] at hok

/-- C5, witness: a failing actuation attempt (breach counter at 1, 0.7
sample fires a target, fresh cooldown state) leaves the cooldown state
at its initial values. -/
theorem failed_actuation_preserves_cooldown_state_witness :
    (loop_tick defaultConfig ⟨1, 0, none⟩ ⟨5, some (7/10), 2, false⟩).1.lastScaleTime
      = (0 : ℚ) ∧
    (loop_tick defaultConfig ⟨1, 0, none⟩
      ⟨5, some (7/10), 2, false⟩).1.lastScaleAction = none :=
  failed_actuation_preserves_cooldown_state defaultConfig ⟨1, 0, none⟩
    ⟨5, some (7/10), 2, false⟩ rfl

/-- C10 (confirmed): the replica source returns the raw count of
non-empty listed container names when the listing command succeeds —
independently of minReplicas, so it can be 0 or below the floor — and
falls back to minReplicas exactly on timeout, non-zero exit, or an
unexpected exception; the loop passes the value to the decision engine
unchanged. -/
theorem replica_source_clamps_only_on_failure :
    (∀ (minR : ℕ) (lines : List String),
      get_current_replicas minR (.ok lines) =
        (lines.filter (fun l => l ≠ "")).length) ∧
    (∀ (minR minR2 : ℕ) (lines : List String),
      get_current_replicas minR (.ok lines) =
        get_current_replicas minR2 (.ok lines)) ∧
    (∀ minR : ℕ, get_current_replicas minR .timeoutExpired = minR ∧
      get_current_replicas minR .calledProcessError = minR ∧
      get_current_replicas minR .otherError = minR) ∧
    get_current_replicas 3 (.ok []) = 0 ∧
    (∀ (cfg : Config) (st : LoopState) (now : ℚ) (metric : Option ℚ)
      (lines : List String) (aok : Bool),
      control_tick cfg st now metric (.ok lines) aok =
        loop_tick cfg st
          ⟨now, metric, (lines.filter (fun l => l ≠ "")).length, aok⟩) :=
  ⟨fun _ _ => rfl, fun _ _ _ => rfl, fun _ => ⟨rfl, rfl, rfl⟩, rfl,
   fun _ _ _ _ _ _ => rfl⟩

end AutoScaleSim
